import Mathlib

/-!
Verification of the orchestration core of `src/app.py` (a Flask chat
application wrapping an LLM agent): the response aggregator, the runner
cache, the session initializer, the tool-function normalization, the
prompt builder, and the chat turn error handling.

Shallow embedding conventions:
  * Python attribute presence/absence is modelled with `Option`.
  * A Python value `None` sitting in a `text` attribute of a part raises
    `TypeError` when appended with `+=`; this fault is modelled by the
    constructor `EvPart.textNone`.
  * Exceptions swallowed by bare `except:` clauses are modelled by making
    the embedded functions total and recording where the Python would
    have raised (`ContentVal.faulty`, `EvPart.textNone`, `FetchResult.failure`,
    the `raised` field of `GenStream`, the `Except` argument of
    `ensureSession`).
-/

set_option autoImplicit false

/-- One part of a structured-content event, as probed by the loop body
`for p in event.content.parts: if hasattr(p, "text"): final += p.text`
(src/app.py:225-226).  `textStr s` is a part whose `text` attribute holds
the string `s`; `textNone` is a part whose `text` attribute holds `None`
(so `final += p.text` raises `TypeError`); `noText` is a part without a
`text` attribute (skipped by the `hasattr` guard). -/
inductive EvPart where
  | textStr (s : String)
  | textNone
  | noText
deriving DecidableEq, Repr

/-- The value of an event `content` attribute.  `parts ps` is a content
object whose `parts` attribute is the list `ps`; `faulty` is a content
value on which accessing `.parts` (or iterating it) raises, e.g.
`content` being `None` (src/app.py:225). -/
inductive ContentVal where
  | parts (ps : List EvPart)
  | faulty
deriving DecidableEq, Repr

/-- One event of the `runner.run_async` stream as inspected by the
aggregation loop (src/app.py:221-227).  `text = some s` means the event
has a `text` attribute holding the string `s` (`none`: no such attribute,
or the attribute is `None` — both fall through the truthiness guard the
same way when the string is empty); `content = some c` means the event
has a `content` attribute holding `c`. -/
structure Event where
  text : Option String
  content : Option ContentVal
deriving DecidableEq, Repr

/-- `for p in event.content.parts: if hasattr(p, "text"): final += p.text`
(src/app.py:225-226).  A `textNone` part raises `TypeError` inside
`final += p.text`; the surrounding `except: continue` (src/app.py:227)
swallows it, so processing of the remaining parts of this event stops and
the accumulator keeps the appends already made. -/
def processParts (acc : String) : List EvPart → String
  | [] => acc
  | EvPart.textStr s :: rest => processParts (acc ++ s) rest
  | EvPart.textNone :: _ => acc
  | EvPart.noText :: rest => processParts acc rest

/-- The `elif hasattr(event, "content")` branch (src/app.py:224-226).
No `content` attribute: the event is ignored.  A faulty content value
raises when `.parts` is accessed; the `except: continue` swallows it and
the accumulator is unchanged. -/
def processContent (acc : String) : Option ContentVal → String
  | none => acc
  | some ContentVal.faulty => acc
  | some (ContentVal.parts ps) => processParts acc ps

/-- The body of the aggregation loop for one event (src/app.py:222-227):
`if hasattr(event, "text") and event.text: final = event.text` (replace),
`elif hasattr(event, "content"): ...` (append part texts). -/
def processEvent (acc : String) (e : Event) : String :=
  match e.text with
  | some s => if s = "" then processContent acc e.content else s
  | none => processContent acc e.content

/-- The aggregation loop `async for event in runner.run_async(...)`
starting from a given accumulator (src/app.py:221-227). -/
def aggregateFrom (acc : String) (es : List Event) : String :=
  es.foldl processEvent acc

/-- Full aggregation of one turn event stream: `final = ""` followed by
the loop (src/app.py:219-227). -/
def aggregate (es : List Event) : String :=
  aggregateFrom "" es

/-- Whether inspecting this list of parts raises in Python: true iff a
`textNone` part is reached before the end (every earlier `textStr` part
was already appended when the raise happens). -/
def partsFault : List EvPart → Bool
  | [] => false
  | EvPart.textStr _ :: rest => partsFault rest
  | EvPart.textNone :: _ => true
  | EvPart.noText :: rest => partsFault rest

/-- Whether inspecting this `content` attribute value raises. -/
def contentFaults : Option ContentVal → Bool
  | none => false
  | some ContentVal.faulty => true
  | some (ContentVal.parts ps) => partsFault ps

/-- Whether inspecting this event inside the loop body raises an error
that the `except: continue` (src/app.py:227) must swallow. -/
def eventFaults (e : Event) : Bool :=
  match e.text with
  | some s => if s = "" then contentFaults e.content else false
  | none => contentFaults e.content

/-- An event carrying only a structured-content field whose parts all
bear text, in order: the `{structuredParts: [...]}` shape of the spec. -/
def structuredEvent (texts : List String) : Event :=
  { text := none, content := some (ContentVal.parts (texts.map EvPart.textStr)) }

/-- An event carrying a plain-text field: the `{plainText: ...}` shape of
the spec. -/
def plainEvent (s : String) : Event :=
  { text := some s, content := none }

/-- Concatenation of a list of strings in order. -/
def concatAll : List String → String
  | [] => ""
  | s :: rest => s ++ concatAll rest

/-- Python `str.lower()` restricted to ASCII input (the format identifiers
in scope are ASCII): lowercase every character (src/app.py:76, 86). -/
def pyLower (s : String) : String :=
  (s.toList.map Char.toLower).asString

/-- A character Python `str.strip()` removes: ASCII whitespace. -/
def isPySpace (c : Char) : Bool :=
  c == ' ' || c == '\t' || c == '\n' || c == '\r' || c == '\x0b' || c == '\x0c'

/-- Python `str.strip()`: drop leading and trailing whitespace
(src/app.py:76, 86). -/
def pyStrip (s : String) : String :=
  (((s.toList.dropWhile isPySpace).reverse.dropWhile isPySpace).reverse).asString

/-- Python `.replace(" ", "")`: remove every space character
(src/app.py:76, 86). -/
def removeSpaces (s : String) : String :=
  (s.toList.filter (fun c => c ≠ ' ')).asString

/-- The shared normalization pipeline of both tools:
`format.lower().strip().replace(" ", "")` (src/app.py:76, 86). -/
def normalizeFormat (s : String) : String :=
  removeSpaces (pyStrip (pyLower s))

/-- Python substring membership `needle in hay` on character lists. -/
def isSubstrList (needle : List Char) : List Char → Bool
  | [] => needle.isEmpty
  | c :: rest => needle.isPrefixOf (c :: rest) || isSubstrList needle rest

/-- Python `"gen9ou" in clean_format` (src/app.py:77). -/
def containsGen9ou (s : String) : Bool :=
  isSubstrList "gen9ou".toList s.toList

/-- The `clean_format` computed by `get_usage_stats` (src/app.py:76-77):
normalization followed by the alias collapse
`if "gen9ou" in clean_format: clean_format = "gen9ou"`. -/
def clean_format_usage (format : String) : String :=
  let clean_format := normalizeFormat format
  if containsGen9ou clean_format then "gen9ou" else clean_format

/-- The `clean_format` computed by `get_sample_teams` (src/app.py:86):
the bare normalization, with no alias branch. -/
def clean_format_teams (format : String) : String :=
  normalizeFormat format

/-- The URL requested by `get_usage_stats` (src/app.py:78). -/
def usage_url (format : String) : String :=
  "https://data.pkmn.cc/stats/" ++ clean_format_usage format ++ ".json"

/-- The URL requested by `get_sample_teams` (src/app.py:87). -/
def teams_url (format : String) : String :=
  "https://data.pkmn.cc/teams/" ++ clean_format_teams format ++ ".json"

/-- Outcome of the outbound `requests.get` + status check + JSON parse.
`json items` is a successful 2xx response whose parsed JSON body is the
ordered container `items` (top-level keys for the stats endpoint, team
entries serialized back by `json.dumps` for the teams endpoint);
`failure` is any failure: network error in `requests.get`, non-2xx from
`raise_for_status()`, or malformed JSON in `.json()` — all caught by the
bare `except:` (src/app.py:79-83, 88-91). -/
inductive FetchResult where
  | json (items : List String)
  | failure
deriving DecidableEq, Repr

/-- `get_usage_stats` (src/app.py:75-83), with the network interaction
abstracted into a `FetchResult` argument: on success it reports the first
20 top-level keys, on any failure the not-found string. -/
def get_usage_stats (format : String) (result : FetchResult) : String :=
  let clean_format := clean_format_usage format
  match result with
  | FetchResult.json keys => "Top 20 Usage: " ++ String.intercalate ", " (keys.take 20)
  | FetchResult.failure => "Stats not found for " ++ clean_format ++ "."

/-- `json.dumps` of a list whose elements are already serialized. -/
def dumpsList (items : List String) : String :=
  "[" ++ String.intercalate ", " items ++ "]"

/-- `get_sample_teams` (src/app.py:85-91), with the network interaction
abstracted into a `FetchResult` argument: on success it dumps the first
two entries, on any failure the no-samples string. -/
def get_sample_teams (format : String) (result : FetchResult) : String :=
  let clean_format := clean_format_teams format
  match result with
  | FetchResult.json teams => "Sample Teams: " ++ dumpsList (teams.take 2)
  | FetchResult.failure => "No samples for " ++ clean_format ++ "."

/-- The triple-quoted base prompt of `get_system_prompt` (src/app.py:95-100). -/
def base_prompt : String :=
  "You are \x27Rotom-Coach\x27, a Grandmaster Pokemon Coach.\n    **Directives:**\n    1. Ask for Format if missing.\n    2. Use `get_usage_stats` for data.\n    3. OUTPUT TEAMS IN SHOWDOWN IMPORTABLE FORMAT INSIDE CODE BLOCKS (```).\n    "

/-- `get_system_prompt` (src/app.py:94-103): the base prompt plus a
tier-specific suffix for exactly the two recognized tiers. -/
def get_system_prompt (knowledge_level : String) : String :=
  if knowledge_level = "Beginner" then
    base_prompt ++ "Explain terms (STAB, EVs). Be educational."
  else if knowledge_level = "Expert" then
    base_prompt ++ "Be concise. Focus on calcs and win-cons."
  else
    base_prompt

/-- `User.__init__` reading the stored proficiency tier:
`user_dict.get("knowledge_level", "Beginner")` (src/app.py:50) — the
default applies only when the field is absent from the profile. -/
def user_knowledge_level (stored : Option String) : String :=
  stored.getD "Beginner"

/-- The model client built by `get_runner` (src/app.py:113-114):
`Gemini(model="models/gemini-2.5-pro", retry_options=HttpRetryOptions(attempts=3))`. -/
structure Gemini where
  model : String
  retry_attempts : Nat
deriving DecidableEq, Repr

/-- The `LlmAgent` constructed by `get_runner` (src/app.py:116-121). -/
structure LlmAgent where
  name : String
  model : Gemini
  instruction : String
  tools : List String
deriving DecidableEq, Repr

/-- `InMemoryRunner(agent=agent, app_name=APP_NAME)` (src/app.py:123). -/
structure InMemoryRunner where
  agent : LlmAgent
  app_name : String
deriving DecidableEq, Repr

/-- `APP_NAME = "agents"` (src/app.py:65). -/
def APP_NAME : String := "agents"

/-- The runner built on a cache miss by `get_runner` (src/app.py:113-123). -/
def build_runner (user_level : String) : InMemoryRunner :=
  { agent :=
      { name := "coach"
        model := { model := "models/gemini-2.5-pro", retry_attempts := 3 }
        instruction := get_system_prompt user_level
        tools := ["get_usage_stats", "get_sample_teams"] }
    app_name := APP_NAME }

/-- The runner cache `RUNNER_CACHE` (src/app.py:106), modelled as an
association list keyed by session id; insertion conses the new binding,
matching dict lookup semantics for distinct keys. -/
abbrev RunnerCache := List (String × InMemoryRunner)

/-- `get_runner(session_id, user_level)` (src/app.py:109-125): return the
cached runner if present, otherwise build one from the tier, store it and
return it.  The function returns both the runner and the updated cache. -/
def get_runner (cache : RunnerCache) (session_id : String) (user_level : String) :
    InMemoryRunner × RunnerCache :=
  match List.lookup session_id cache with
  | some runner => (runner, cache)
  | none =>
      let runner := build_runner user_level
      (runner, (session_id, runner) :: cache)

/-- The session-initialization step of `chat` (src/app.py:202-213),
parameterized by the outcome of the underlying
`runner.session_service.create_session` call: if the key is not yet in
`INITIALIZED_SESSIONS`, attempt creation and add the key to the set in
both the success branch and the `except` branch (where the failure is
only printed).  The function is total: no outcome propagates an
exception to the caller. -/
def ensureSession (initialized : List String) (session_id : String)
    (createOutcome : Except String Unit) : List String :=
  if initialized.contains session_id then
    initialized
  else
    match createOutcome with
    | Except.ok _ => session_id :: initialized
    | Except.error _ => session_id :: initialized

/-- One generation call as observed by the `chat` handler
(src/app.py:220-228): the events the stream yielded, and `raised = some
msg` when `run_async` (or the iteration itself) raised an exception with
message `msg` after those events. -/
structure GenStream where
  events : List Event
  raised : Option String
deriving DecidableEq, Repr

/-- The JSON body returned by `chat`: `{"response": final}` on success,
`{"error": str(e)}` when the generation call raised (src/app.py:228-230). -/
inductive ChatResult where
  | response (text : String)
  | error (msg : String)
deriving DecidableEq, Repr

/-- The generation-and-aggregation stage of `chat` (src/app.py:219-230):
if the stream raised, the whole `try` block is abandoned and the handler
returns the error result carrying the exception message (the partially
aggregated text is discarded); otherwise it returns the aggregated text. -/
def chat_turn (gen : GenStream) : ChatResult :=
  match gen.raised with
  | some msg => ChatResult.error msg
  | none => ChatResult.response (aggregate gen.events)

/-! ### Helper lemmas -/

/-- Processing the parts of one event only ever extends the accumulator:
some suffix is appended, the accumulator is never replaced or truncated. -/
theorem processParts_extends (ps : List EvPart) :
    ∀ acc : String, ∃ t : String, processParts acc ps = acc ++ t := by
  induction ps with
  | nil =>
      intro acc
      exact ⟨"", (String.append_empty acc).symm⟩
  | cons p rest ih =>
      intro acc
      cases p with
      | textStr s =>
          obtain ⟨t, ht⟩ := ih (acc ++ s)
          refine ⟨s ++ t, ?_⟩
          simp only [processParts, ht, String.append_assoc]
      | textNone =>
          exact ⟨"", (String.append_empty acc).symm⟩
      | noText =>
          obtain ⟨t, ht⟩ := ih acc
          exact ⟨t, by simp only [processParts, ht]⟩

/-- The content branch only ever extends the accumulator. -/
theorem processContent_extends (c : Option ContentVal) (acc : String) :
    ∃ t : String, processContent acc c = acc ++ t := by
  match c with
  | none => exact ⟨"", (String.append_empty acc).symm⟩
  | some ContentVal.faulty => exact ⟨"", (String.append_empty acc).symm⟩
  | some (ContentVal.parts ps) => exact processParts_extends ps acc

/-- A faulting event never fires the replace branch, so it only ever
extends the accumulator. -/
theorem processEvent_faulty_extends (e : Event) (acc : String)
    (h : eventFaults e = true) : ∃ t : String, processEvent acc e = acc ++ t := by
  rcases e with ⟨txt, cnt⟩
  cases txt with
  | none => exact processContent_extends cnt acc
  | some s =>
      by_cases hs : s = ""
      · simpa [processEvent, hs] using processContent_extends cnt acc
      · simp [eventFaults, hs] at h

/-- Appending the texts of a list of purely textual parts appends their
concatenation. -/
theorem processParts_textStrs (ts : List String) :
    ∀ acc : String, processParts acc (ts.map EvPart.textStr) = acc ++ concatAll ts := by
  induction ts with
  | nil =>
      intro acc
      simp [processParts, concatAll]
  | cons t rest ih =>
      intro acc
      simp only [List.map, processParts, concatAll, ih (acc ++ t), String.append_assoc]

/-- `concatAll` distributes over list append. -/
theorem concatAll_append (a b : List String) :
    concatAll (a ++ b) = concatAll a ++ concatAll b := by
  induction a with
  | nil => simp [concatAll, String.empty_append]
  | cons s rest ih => simp [concatAll, ih, String.append_assoc]

/-- Folding purely structured events appends the concatenation of all
their part texts. -/
theorem aggregateFrom_structured (pss : List (List String)) :
    ∀ acc : String,
      aggregateFrom acc (pss.map structuredEvent) = acc ++ concatAll pss.flatten := by
  induction pss with
  | nil =>
      intro acc
      simp [aggregateFrom, List.flatten, concatAll]
  | cons ps rest ih =>
      intro acc
      have hstep : processEvent acc (structuredEvent ps) = acc ++ concatAll ps := by
        simp only [structuredEvent, processEvent, processContent]
        exact processParts_textStrs ps acc
      calc aggregateFrom acc (structuredEvent ps :: rest.map structuredEvent)
          = aggregateFrom (processEvent acc (structuredEvent ps)) (rest.map structuredEvent) := rfl
        _ = (acc ++ concatAll ps) ++ concatAll rest.flatten := by rw [hstep, ih]
        _ = acc ++ concatAll ((ps :: rest).flatten) := by
              simp [List.flatten, concatAll_append, String.append_assoc]

/-! ### Claim theorems -/

/-- Claim C1: whenever an event exposes a non-empty plain-text field, the
aggregation loop replaces the accumulator with that text, discarding
everything accumulated before it; in particular the stream
[structured "draft", plain "final answer"] aggregates to "final answer". -/
theorem c1_plaintext_replaces :
    (∀ (acc : String) (e : Event) (s : String),
      e.text = some s → s ≠ "" → processEvent acc e = s) ∧
    aggregate [structuredEvent ["draft"], plainEvent "final answer"] = "final answer" := by
  constructor
  · intro acc e s hs hne
    unfold processEvent
    rw [hs]
    simp [hne]
  · rfl

/-- Witness for C1 at a concrete input. -/
theorem c1_plaintext_replaces_witness :
    processEvent "draft" (plainEvent "final answer") = "final answer" :=
  c1_plaintext_replaces.1 "draft" (plainEvent "final answer") "final answer" rfl (by decide)

/-- Claim C2: a stream of events that each carry only a structured-content
field with text-bearing parts aggregates to the concatenation, in arrival
order, of all the part texts; in particular
[structured "Hello, ", structured "coach!"] gives "Hello, coach!" and the
empty stream gives "". -/
theorem c2_structured_appends :
    (∀ pss : List (List String),
      aggregate (pss.map structuredEvent) = concatAll pss.flatten) ∧
    aggregate [structuredEvent ["Hello, "], structuredEvent ["coach!"]] = "Hello, coach!" ∧
    aggregate ([] : List Event) = "" := by
  refine ⟨?_, rfl, rfl⟩
  intro pss
  simpa [aggregate] using
    (aggregateFrom_structured pss "").trans (String.empty_append (concatAll pss.flatten))

/-- Counterexample to claim C3 as stated: an event whose parts are
[text "a", text None] raises while being inspected (the `+=` on the None
text), the error is swallowed — yet the accumulator is NOT left exactly
as it was before the event: starting from "" it ends at "a", keeping the
append made before the fault. -/
theorem c3_counterexample :
    eventFaults (Event.mk none (some (ContentVal.parts [EvPart.textStr "a", EvPart.textNone]))) = true ∧
    processEvent "" (Event.mk none (some (ContentVal.parts [EvPart.textStr "a", EvPart.textNone]))) ≠ "" :=
  ⟨rfl, by decide⟩

/-- Claim C3, amended: any error raised while inspecting an individual
event is swallowed and processing continues with the next event — an
event-level fault never aborts the whole turn — and the faulting event
can only extend the accumulator (it never replaces or truncates it), but
the accumulator is not necessarily left exactly as it was before the
event: it keeps any part texts appended before the fault. -/
theorem c3_fault_swallowed :
    ∀ (acc : String) (e : Event) (es : List Event), eventFaults e = true →
      aggregateFrom acc (e :: es) = aggregateFrom (processEvent acc e) es ∧
      ∃ t : String, processEvent acc e = acc ++ t := by
  intro acc e es h
  exact ⟨rfl, processEvent_faulty_extends e acc h⟩

/-- Witness for the amended C3 at a concrete faulting event. -/
theorem c3_fault_swallowed_witness :
    aggregateFrom "x" (Event.mk none (some (ContentVal.parts [EvPart.textStr "a", EvPart.textNone])) :: [structuredEvent ["b"]]) =
      aggregateFrom (processEvent "x" (Event.mk none (some (ContentVal.parts [EvPart.textStr "a", EvPart.textNone])))) [structuredEvent ["b"]] ∧
    ∃ t : String,
      processEvent "x" (Event.mk none (some (ContentVal.parts [EvPart.textStr "a", EvPart.textNone]))) = "x" ++ t :=
  c3_fault_swallowed "x" (Event.mk none (some (ContentVal.parts [EvPart.textStr "a", EvPart.textNone]))) [structuredEvent ["b"]] rfl

/-- Claim C4: for every conversation key, calling `get_runner` twice with
any, possibly different, tier arguments returns the same runner both
times; and once an entry exists for the key it is returned unchanged,
with the cache untouched, regardless of the tier argument. -/
theorem c4_runner_cache_stable :
    ∀ (cache : RunnerCache) (session_id t1 t2 : String),
      (get_runner (get_runner cache session_id t1).2 session_id t2).1 =
        (get_runner cache session_id t1).1 ∧
      (∀ r : InMemoryRunner, List.lookup session_id cache = some r →
        get_runner cache session_id t1 = (r, cache)) := by
  intro cache session_id t1 t2
  constructor
  · match h : List.lookup session_id cache with
    | some r => simp [get_runner, h]
    | none => simp [get_runner, h, List.lookup]
  · intro r hr
    simp [get_runner, hr]

/-- Witness for C4 at a concrete one-entry cache. -/
theorem c4_runner_cache_stable_witness :
    (get_runner (get_runner [("s", build_runner "Expert")] "s" "Beginner").2 "s" "Expert").1 =
      (get_runner [("s", build_runner "Expert")] "s" "Beginner").1 ∧
    get_runner [("s", build_runner "Expert")] "s" "Beginner" =
      (build_runner "Expert", [("s", build_runner "Expert")]) :=
  ⟨(c4_runner_cache_stable [("s", build_runner "Expert")] "s" "Beginner" "Expert").1,
   (c4_runner_cache_stable [("s", build_runner "Expert")] "s" "Beginner" "Expert").2
     (build_runner "Expert") rfl⟩

/-- Claim C5: the session-initialization step never raises to its caller
(`ensureSession` is total over every creation outcome, success or
failure), after one call the key is a member of the initialized set
regardless of the creation outcome, and a redundant second call changes
nothing. -/
theorem c5_ensure_session :
    ∀ (initialized : List String) (session_id : String) (o o2 : Except String Unit),
      (ensureSession initialized session_id o).contains session_id = true ∧
      ensureSession (ensureSession initialized session_id o) session_id o2 =
        ensureSession initialized session_id o := by
  intro initialized session_id o o2
  by_cases h : session_id ∈ initialized
  · simp [ensureSession, h]
  · cases o <;> cases o2 <;> simp [ensureSession, h]

/-- Counterexample to claim C6 as stated: `get_sample_teams` does NOT
special-case the canonical alias.  On the input "gen9ou monotype", whose
normalized form contains "gen9ou", the teams tool keeps
"gen9oumonotype" while the usage tool collapses to "gen9ou". -/
theorem c6_counterexample :
    containsGen9ou (clean_format_teams "gen9ou monotype") = true ∧
    clean_format_teams "gen9ou monotype" ≠ "gen9ou" ∧
    clean_format_usage "gen9ou monotype" = "gen9ou" :=
  ⟨by decide, by decide, by decide⟩

/-- Claim C6, amended: both tool functions normalize the format argument
by lowercasing, stripping surrounding whitespace and removing internal
spaces, but only `get_usage_stats` special-cases the canonical alias;
`get_sample_teams` applies the bare normalization.  The input
" Gen 9 OU " still normalizes to "gen9ou" in both tools, because the bare
normalization alone already yields the alias there. -/
theorem c6_normalization :
    clean_format_usage " Gen 9 OU " = "gen9ou" ∧
    clean_format_teams " Gen 9 OU " = "gen9ou" ∧
    (∀ format : String,
      clean_format_teams format = removeSpaces (pyStrip (pyLower format))) ∧
    clean_format_usage "Gen 9 OU Monotype" = "gen9ou" ∧
    clean_format_teams "Gen 9 OU Monotype" = "gen9oumonotype" :=
  ⟨by decide, by decide, fun _ => rfl, by decide, by decide⟩

/-- Claim C7: whenever the outbound call fails in any way (network error,
non-2xx status, malformed JSON — all collapsed into the `failure`
outcome), each tool returns its fixed not-found string, built from the
cleaned identifier; the embedded functions are total, so no exception
crosses the tool boundary. -/
theorem c7_failure_not_found :
    ∀ format : String,
      get_usage_stats format FetchResult.failure =
        "Stats not found for " ++ clean_format_usage format ++ "." ∧
      get_sample_teams format FetchResult.failure =
        "No samples for " ++ clean_format_teams format ++ "." :=
  fun _ => ⟨rfl, rfl⟩

/-- Claim C8: whenever the generation call raises, the chat handler
returns a single error result carrying the underlying exception message,
with no retry at this layer; for every other outcome the turn returns the
aggregated text as the success result. -/
theorem c8_generation_error :
    ∀ (es : List Event) (msg : String),
      chat_turn { events := es, raised := some msg } = ChatResult.error msg ∧
      chat_turn { events := es, raised := none } = ChatResult.response (aggregate es) :=
  fun _ _ => ⟨rfl, rfl⟩

set_option maxRecDepth 8192 in
/-- Counterexample to claim C9 as stated: for the unknown tier "Wizard"
(outside the enumerated set), building the agent does NOT produce the
same system instruction as building it for Beginner — the Beginner suffix
is missing. -/
theorem c9_counterexample :
    (build_runner "Wizard").agent.instruction ≠ (build_runner "Beginner").agent.instruction := by
  decide

/-- Claim C9, amended: an unset tier defaults to Beginner (the user
constructor reads the stored field with default "Beginner"), but an
unknown tier value outside the enumerated set produces the bare base
instruction with no tier suffix — the same instruction as Intermediate,
not the same as Beginner. -/
theorem c9_default_tier :
    ∀ level : String, level ≠ "Beginner" → level ≠ "Expert" →
      (build_runner level).agent.instruction = base_prompt ∧
      (build_runner level).agent.instruction =
        (build_runner "Intermediate").agent.instruction ∧
      user_knowledge_level none = "Beginner" := by
  intro level h1 h2
  refine ⟨?_, ?_, rfl⟩ <;>
    simp [build_runner, get_system_prompt, h1, h2]

/-- Witness for the amended C9 at the concrete unknown tier "Wizard". -/
theorem c9_default_tier_witness :
    (build_runner "Wizard").agent.instruction = base_prompt ∧
    (build_runner "Wizard").agent.instruction =
      (build_runner "Intermediate").agent.instruction ∧
    user_knowledge_level none = "Beginner" :=
  c9_default_tier "Wizard" (by decide) (by decide)

/-- Claim C10: in `get_usage_stats`, every input whose normalized form
contains "gen9ou" as a substring is collapsed to exactly "gen9ou", so all
such inputs query the same upstream URL and, on failure, report the same
identifier in the not-found string. -/
theorem c10_gen9ou_collapse :
    ∀ format : String, containsGen9ou (normalizeFormat format) = true →
      clean_format_usage format = "gen9ou" ∧
      usage_url format = "https://data.pkmn.cc/stats/gen9ou.json" ∧
      get_usage_stats format FetchResult.failure = "Stats not found for gen9ou." := by
  intro format h
  have hc : clean_format_usage format = "gen9ou" := by
    unfold clean_format_usage
    simp [h]
  refine ⟨hc, ?_, ?_⟩
  · calc usage_url format
        = "https://data.pkmn.cc/stats/" ++ clean_format_usage format ++ ".json" := rfl
      _ = "https://data.pkmn.cc/stats/" ++ "gen9ou" ++ ".json" := by rw [hc]
      _ = "https://data.pkmn.cc/stats/gen9ou.json" := by decide
  · calc get_usage_stats format FetchResult.failure
        = "Stats not found for " ++ clean_format_usage format ++ "." := rfl
      _ = "Stats not found for " ++ "gen9ou" ++ "." := by rw [hc]
      _ = "Stats not found for gen9ou." := by decide

/-- Witness for C10 at the concrete input "gen9oumonotype". -/
theorem c10_gen9ou_collapse_witness :
    containsGen9ou (normalizeFormat "gen9oumonotype") = true ∧
    (clean_format_usage "gen9oumonotype" = "gen9ou" ∧
     usage_url "gen9oumonotype" = "https://data.pkmn.cc/stats/gen9ou.json" ∧
     get_usage_stats "gen9oumonotype" FetchResult.failure = "Stats not found for gen9ou.") :=
  ⟨by decide, c10_gen9ou_collapse "gen9oumonotype" (by decide)⟩
